import Mathlib

/-!
Shallow embedding of `src/main.py` (InDra content pipeline): the Queue
Driver (`main`), Image Collector (`download_images`), Video Assembler
(`render_video`), and Publisher (`upload_to_gofile`), together with the
theorems settling the behavioural claims about them.

Python strings are modelled as Lean `String` values, with the Python
operations re-implemented structurally over the code-point list
(`String.data`), matching Python semantics (which slices, strips,
compares and concatenates by code point).
-/

namespace InDra

/-- Python slicing `s[:n]` by code points (models `str(e)[:50]` at
`main.py:209`). -/
def pySlice (s : String) (n : Nat) : String := ⟨s.data.take n⟩

/-- Python `str.strip()` with no argument: remove leading and trailing
whitespace (models `row.get('Status','').strip()` at `main.py:168`). -/
def pyStrip (s : String) : String :=
  ⟨((s.data.dropWhile Char.isWhitespace).reverse.dropWhile Char.isWhitespace).reverse⟩

/-- Python `str.endswith(suffix)` (models `f.endswith('.jpg')` at
`main.py:81`). -/
def pyEndsWith (s suffix : String) : Bool := suffix.data.isSuffixOf s.data

/-- Lexicographic comparison of code-point lists: Python string `<=`,
the order used by Python `sorted` on strings. -/
def lexLe : List Char → List Char → Bool
  | [], _ => true
  | _ :: _, [] => false
  | a :: as, b :: bs => if a < b then true else if b < a then false else lexLe as bs

/-- `IMAGE_COUNT = 20` (`main.py:19`). -/
def IMAGE_COUNT : Nat := 20

/-! ## Image Collector (`download_images`, `main.py:49-73`)

The loop body is abstracted over the outcome of each candidate fetch:
`true` means the whole `try` block succeeded (HTTP 200, decode, resize,
save) and `count` was incremented; `false` means any failure, which the
bare `except: continue` swallows. -/

/-- The `for res in results` loop of `download_images` (`main.py:59-72`):
stop as soon as `count >= IMAGE_COUNT`, otherwise increment `count`
exactly when the candidate succeeds. -/
def downloadLoop : List Bool → Nat → Nat
  | [], count => count
  | r :: rest, count =>
    if IMAGE_COUNT ≤ count then count
    else downloadLoop rest (if r then count + 1 else count)

/-- `download_images` returns the final `count`, starting from 0
(`main.py:58,73`). -/
def download_images (results : List Bool) : Nat := downloadLoop results 0

/-- Filename of the i-th saved image: `f"img_{count}.jpg"` (`main.py:69`). -/
def imageFileName (i : Nat) : String := "img_" ++ toString i ++ ".jpg"

/-- Filenames written by a run of `download_images` that saved `n` images:
indices 0 .. n-1, in save order. -/
def savedImageNames (n : Nat) : List String := (List.range n).map imageFileName

/-! ## Video Assembler (`render_video`, `main.py:80-92`) -/

/-- `sorted([f for f in os.listdir(DOWNLOAD_DIR) if f.endswith('.jpg')])`
(`main.py:81`): keep the `.jpg` entries of the directory listing and sort
them lexicographically (Python `sorted` is a stable comparison sort;
`List.insertionSort` is one too). -/
def sortImages (files : List String) : List String :=
  List.insertionSort (fun a b => lexLe a.data b.data = true)
    (files.filter (fun f => pyEndsWith f ".jpg"))

/-- One line pair of the concat manifest `list.txt`: an image path with
its `duration` line, or (for the final repeated line) no duration. -/
structure ManifestEntry where
  path : String
  dur : Option ℚ
deriving DecidableEq, Repr

/-- The manifest body written at `main.py:85-88`: one
`file ... / duration img_dur` pair per image, then the last image path
again with no duration. Durations are modelled in ℚ (Python floats,
claims are stated up to rounding). -/
def manifest (imgs : List String) (imgDur : ℚ) : List ManifestEntry :=
  imgs.map (fun p => ⟨p, some imgDur⟩) ++ [⟨imgs.getLastD "", none⟩]

/-- `render_video` (`main.py:80-88`) up to the manifest write: sort the
image listing, compute `img_dur = duration / len(img_files)` — a Python
`ZeroDivisionError` when no image survived the filter — and emit the
manifest. `duration` (from `ffprobe`) is an input. -/
def render_video (files : List String) (duration : ℚ) :
    Except String (List ManifestEntry) :=
  let img_files := sortImages files
  if img_files.length = 0 then
    Except.error "ZeroDivisionError: division by zero"
  else
    Except.ok (manifest img_files (duration / img_files.length))

/-! ## Publisher (`upload_to_gofile`, `main.py:94-135`)

The network is abstracted as an environment: the outcome of the
`getServer` GET, of the upload POST to each possible server, and of the
Catbox POST. `Except.error` models a raised exception (network error,
`.json()` decode failure); missing JSON keys are modelled as `Option`
fields whose absence raises a `KeyError` at the access site. -/

/-- JSON envelope of `GET https://api.gofile.io/getServer`
(`main.py:98-105`): a `status` field, optionally `data.server`,
optionally `data.serversAllZone` (as the list of `name` fields). -/
structure ServerResp where
  status : String
  server : Option String
  serversAllZone : Option (List String)
deriving Repr

/-- JSON envelope of the upload POST (`main.py:110-113`): `status` and
optionally `data.downloadPage`. -/
structure GofileResp where
  status : String
  downloadPage : Option String
deriving Repr

/-- Environment of one `upload_to_gofile` call: outcome of the server
assignment GET, of the upload POST as a function of the server chosen,
and of the Catbox POST (HTTP status code and body text). -/
structure UploadEnv where
  getServer : Except String ServerResp
  uploadResp : String → Except String GofileResp
  catbox : Except String (Nat × String)

/-- Server selection (`main.py:100-105`): `data.server` when `status`
is `'ok'`, else `data.serversAllZone[0]['name']`; a missing key or an
empty list raises. -/
def pickServer (r : ServerResp) : Except String String :=
  if r.status = "ok" then
    match r.server with
    | some s => Except.ok s
    | none => Except.error "KeyError: server"
  else
    match r.serversAllZone with
    | some (s :: _) => Except.ok s
    | some [] => Except.error "IndexError: list index out of range"
    | none => Except.error "KeyError: serversAllZone"

/-- Body of the first `try` block (`main.py:96-115`). First component:
`Except.ok (some url)` means `return download_page` was reached,
`Except.ok none` means control fell off the end of the `try` (upload
response `status` not `'ok'`), `Except.error e` means an exception was
raised inside. Second component: the server the upload POST targeted,
if the POST was reached. -/
def primaryBody (env : UploadEnv) : Except String (Option String) × Option String :=
  match env.getServer with
  | Except.error e => (Except.error e, none)
  | Except.ok r =>
    match pickServer r with
    | Except.error e => (Except.error e, none)
    | Except.ok srv =>
      match env.uploadResp srv with
      | Except.error e => (Except.error e, some srv)
      | Except.ok resp =>
        if resp.status = "ok" then
          match resp.downloadPage with
          | some url => (Except.ok (some url), some srv)
          | none => (Except.error "KeyError: downloadPage", some srv)
        else (Except.ok none, some srv)

/-- Body of the Catbox `try` block (`main.py:121-131`): on HTTP 200
return the body text, otherwise fall through (to `return None`);
`Except.error` means the POST raised. -/
def catboxBody (env : UploadEnv) : Except String (Option String) :=
  match env.catbox with
  | Except.error e => Except.error e
  | Except.ok (code, text) => if code = 200 then Except.ok (some text) else Except.ok none

/-- Observable outcome of one `upload_to_gofile` call: the returned
value (`None` or a URL string), which server the GoFile upload POST
targeted (if any), and whether the Catbox fallback block ran. -/
structure UploadOutcome where
  result : Option String
  gofileServer : Option String
  catboxTried : Bool
deriving Repr

/-- `upload_to_gofile` (`main.py:94-135`) as a trace: the primary block
returns a URL, or else — its `except` having caught any exception, or
control having fallen through — the Catbox block runs, its own `except`
catching everything, and `None` is the default. -/
def upload_to_gofile (env : UploadEnv) : UploadOutcome :=
  match primaryBody env with
  | (Except.ok (some url), srv) => ⟨some url, srv, false⟩
  | (_, srv) =>
    match catboxBody env with
    | Except.ok r => ⟨r, srv, true⟩
    | Except.error _ => ⟨none, srv, true⟩

/-- `upload_to_gofile` with exception propagation made explicit: an
`Except.error` result would mean an exception escaping to the caller.
The two `except` clauses of the source are the two catch-alls here. -/
def uploadRun (env : UploadEnv) : Except String (Option String) :=
  match (primaryBody env).1 with
  | Except.ok (some url) => Except.ok (some url)
  | _ =>
    match catboxBody env with
    | Except.ok r => Except.ok r
    | Except.error _ => Except.ok none

/-! ## Queue Driver (`main`, `main.py:137-209`)

Each row of `get_all_records()` carries its `Status` and result-URL
cells; the driver mutates them. The work done for one row — the five
`update_cell`/phase calls inside the `try` and the cleanup — is
abstracted as a `RowOutcome`: each step either returns (`Except.ok`) or
raises with a message (`Except.error`). `upload_to_gofile` itself never
raises (proved below), but the driver is modelled against arbitrary
outcomes. -/

/-- The two sheet cells the driver writes for a row: the `Status` cell
(column 3) and the result-URL cell (column 4). -/
structure Cells where
  status : String
  url : String
deriving DecidableEq, Repr

/-- Outcome of each step of one row body (`main.py:172-202`):
`markProcessing` is the `update_cell(..., "Processing")` call, `audio`,
`images`, `render` the three phase calls, `upload` the
`upload_to_gofile` return value (`none` models Python `None`),
`writeCompleted`/`writeUrl`/`writeUploadFailed` the success-path
`update_cell` calls, `cleanup` the file-removal block. -/
structure RowOutcome where
  markProcessing : Except String Unit
  audio : Except String Unit
  images : Except String Unit
  render : Except String Unit
  upload : Except String (Option String)
  writeCompleted : Except String Unit
  writeUrl : Except String Unit
  writeUploadFailed : Except String Unit
  cleanup : Except String Unit

/-- The `except` handler (`main.py:204-209`): overwrite the status cell
with `"Error: "` plus the first 50 characters of the message. -/
def errStatus (e : String) (c : Cells) : Cells :=
  { c with status := "Error: " ++ pySlice e 50 }

/-- The cleanup block (`main.py:195-202`) and its effect on the final
cells: a raise there is caught by the row handler. -/
def afterCleanup (o : RowOutcome) (c : Cells) : Cells :=
  match o.cleanup with
  | Except.error e => errStatus e c
  | Except.ok _ => c

/-- The `else` branch at `main.py:191-192`: write `"Upload Failed"`
(URL cell untouched), then cleanup. -/
def uploadFailedPath (o : RowOutcome) (c : Cells) : Cells :=
  match o.writeUploadFailed with
  | Except.error e => errStatus e c
  | Except.ok _ => afterCleanup o { c with status := "Upload Failed" }

/-- One row body with its handler (`main.py:171-209`): run the steps in
order; the first raise jumps to the handler, which writes the truncated
error status over whatever the cells held at that point. The
`if video_url:` test is Python truthiness: `None` and `""` both take
the `else` branch. -/
def processRow (o : RowOutcome) (c : Cells) : Cells :=
  match o.markProcessing with
  | Except.error e => errStatus e c
  | Except.ok _ =>
    let c1 : Cells := { c with status := "Processing" }
    match o.audio with
    | Except.error e => errStatus e c1
    | Except.ok _ =>
      match o.images with
      | Except.error e => errStatus e c1
      | Except.ok _ =>
        match o.render with
        | Except.error e => errStatus e c1
        | Except.ok _ =>
          match o.upload with
          | Except.error e => errStatus e c1
          | Except.ok none => uploadFailedPath o c1
          | Except.ok (some u) =>
            if u = "" then uploadFailedPath o c1
            else
              match o.writeCompleted with
              | Except.error e => errStatus e c1
              | Except.ok _ =>
                let c2 : Cells := { c1 with status := "Completed" }
                match o.writeUrl with
                | Except.error e => errStatus e c2
                | Except.ok _ =>
                  afterCleanup o { c2 with url := u }

/-- First raise along the `"Upload Failed"` branch. -/
def firstRaiseFail (o : RowOutcome) : Option String :=
  match o.writeUploadFailed with
  | Except.error e => some e
  | Except.ok _ =>
    match o.cleanup with
    | Except.error e => some e
    | Except.ok _ => none

/-- First raise along the `"Completed"` branch. -/
def firstRaiseOk (o : RowOutcome) : Option String :=
  match o.writeCompleted with
  | Except.error e => some e
  | Except.ok _ =>
    match o.writeUrl with
    | Except.error e => some e
    | Except.ok _ =>
      match o.cleanup with
      | Except.error e => some e
      | Except.ok _ => none

/-- Message of the first exception raised along the executed path of the
row body, if any: mirrors the control flow of `processRow`. -/
def firstRaise (o : RowOutcome) : Option String :=
  match o.markProcessing with
  | Except.error e => some e
  | Except.ok _ =>
    match o.audio with
    | Except.error e => some e
    | Except.ok _ =>
      match o.images with
      | Except.error e => some e
      | Except.ok _ =>
        match o.render with
        | Except.error e => some e
        | Except.ok _ =>
          match o.upload with
          | Except.error e => some e
          | Except.ok none => firstRaiseFail o
          | Except.ok (some u) =>
            if u = "" then firstRaiseFail o else firstRaiseOk o

/-- One row of `get_all_records()` (`main.py:156`): the four columns the
driver reads or writes. -/
structure SheetRow where
  title : String
  script : String
  status : String
  url : String
deriving Repr

/-- The cells of a row before the driver touches it. -/
def initCells (r : SheetRow) : Cells := ⟨r.status, r.url⟩

/-- The guard at `main.py:168-169`:
`status = row.get('Status','').strip(); if status == '' or status == 'Pending'`. -/
def shouldProcess (status : String) : Bool :=
  pyStrip status == "" || pyStrip status == "Pending"

/-- What the loop does to one row (`main.py:165-209`): run the body when
the guard holds, otherwise leave the cells untouched. -/
def stepRow (o : RowOutcome) (r : SheetRow) : Cells :=
  if shouldProcess r.status then processRow o (initCells r) else initCells r

/-- The `for i, row in enumerate(records)` loop (`main.py:165`), with an
oracle giving each row index its body outcome: final cells of every row. -/
def runQueue (outcomes : Nat → RowOutcome) : Nat → List SheetRow → List Cells
  | _, [] => []
  | i, r :: rest => stepRow (outcomes i) r :: runQueue outcomes (i + 1) rest

/-- A fully successful row outcome, for concrete instantiations. -/
def okOutcome : RowOutcome :=
  ⟨Except.ok (), Except.ok (), Except.ok (), Except.ok (),
   Except.ok (some "https://gofile.io/d/demo"), Except.ok (), Except.ok (),
   Except.ok (), Except.ok ()⟩

/-! ## Helper lemmas -/

theorem pySlice_length_le (s : String) (n : Nat) : (pySlice s n).length ≤ n := by
  show (s.data.take n).length ≤ n
  simp

theorem runQueue_length (outcomes : Nat → RowOutcome) :
    ∀ (i : Nat) (rows : List SheetRow),
      (runQueue outcomes i rows).length = rows.length
  | _, [] => rfl
  | i, _ :: rest => by
      simp [runQueue, runQueue_length outcomes (i + 1) rest]

theorem runQueue_getD (outcomes : Nat → RowOutcome) :
    ∀ (rows : List SheetRow) (i k : Nat), k < rows.length →
      (runQueue outcomes i rows).getD k ⟨"", ""⟩ =
        stepRow (outcomes (i + k)) (rows.getD k ⟨"", "", "", ""⟩)
  | [], _, k, h => absurd h (by simp)
  | r :: rest, i, 0, _ => by simp [runQueue]
  | r :: rest, i, k + 1, h => by
      have ih := runQueue_getD outcomes rest (i + 1) k (by simpa using h)
      simpa [runQueue, Nat.add_comm, Nat.add_assoc, Nat.add_left_comm] using ih

theorem shouldProcess_iff (s : String) :
    shouldProcess s = true ↔ pyStrip s = "" ∨ pyStrip s = "Pending" := by
  simp [shouldProcess]

theorem uploadFailedPath_cases (o : RowOutcome) (c : Cells) :
    uploadFailedPath o c = ⟨"Upload Failed", c.url⟩ ∨
    ∃ e c0, uploadFailedPath o c = errStatus e c0 := by
  unfold uploadFailedPath afterCleanup
  cases h1 : o.writeUploadFailed with
  | error e => right; exact ⟨e, c, rfl⟩
  | ok _ =>
    cases h2 : o.cleanup with
    | error e => right; exact ⟨e, _, rfl⟩
    | ok _ => left; rfl

theorem processRow_cases (o : RowOutcome) (c : Cells) :
    (∃ u, u ≠ "" ∧ processRow o c = ⟨"Completed", u⟩) ∨
    processRow o c = ⟨"Upload Failed", c.url⟩ ∨
    ∃ e c0, processRow o c = errStatus e c0 := by
  obtain ⟨mp, au, im, re, up, wc, wu, wf, cl⟩ := o
  cases mp with
  | error e => right; right; exact ⟨e, c, rfl⟩
  | ok _ =>
  cases au with
  | error e => right; right; exact ⟨e, _, rfl⟩
  | ok _ =>
  cases im with
  | error e => right; right; exact ⟨e, _, rfl⟩
  | ok _ =>
  cases re with
  | error e => right; right; exact ⟨e, _, rfl⟩
  | ok _ =>
  cases up with
  | error e => right; right; exact ⟨e, _, rfl⟩
  | ok v =>
  cases v with
  | none =>
    have h := uploadFailedPath_cases ⟨Except.ok (), Except.ok (), Except.ok (),
      Except.ok (), Except.ok none, wc, wu, wf, cl⟩ { c with status := "Processing" }
    rcases h with h | ⟨e, c0, h⟩
    · right; left; simpa [processRow] using h
    · right; right; exact ⟨e, c0, by simpa [processRow] using h⟩
  | some u =>
    by_cases hu : u = ""
    · have h := uploadFailedPath_cases ⟨Except.ok (), Except.ok (), Except.ok (),
        Except.ok (), Except.ok (some u), wc, wu, wf, cl⟩ { c with status := "Processing" }
      rcases h with h | ⟨e, c0, h⟩
      · right; left; simpa [processRow, hu] using h
      · right; right; exact ⟨e, c0, by simpa [processRow, hu] using h⟩
    · simp only [processRow, if_neg hu]
      cases wc with
      | error e => right; right; exact ⟨e, _, rfl⟩
      | ok _ =>
      cases wu with
      | error e => right; right; exact ⟨e, _, rfl⟩
      | ok _ =>
      unfold afterCleanup
      cases cl with
      | error e => right; right; exact ⟨e, _, rfl⟩
      | ok _ => left; exact ⟨u, hu, rfl⟩

/-! ## Claims -/

/-- C1: the Queue Driver processes a fetched row if and only if its
status cell, stripped of surrounding whitespace, is exactly `""` or
exactly `"Pending"`; every row with any other stripped status is left
untouched. -/
theorem queue_processes_iff_blank_or_pending (outcomes : Nat → RowOutcome)
    (rows : List SheetRow) (i : Nat) (h : i < rows.length) :
    (runQueue outcomes 0 rows).getD i ⟨"", ""⟩ =
      (if pyStrip (rows.getD i ⟨"", "", "", ""⟩).status = ""
          ∨ pyStrip (rows.getD i ⟨"", "", "", ""⟩).status = "Pending"
       then processRow (outcomes i) (initCells (rows.getD i ⟨"", "", "", ""⟩))
       else initCells (rows.getD i ⟨"", "", "", ""⟩)) := by
  rw [runQueue_getD outcomes rows 0 i h, Nat.zero_add]
  unfold stepRow
  by_cases hc : pyStrip (rows.getD i ⟨"", "", "", ""⟩).status = ""
      ∨ pyStrip (rows.getD i ⟨"", "", "", ""⟩).status = "Pending"
  · rw [if_pos ((shouldProcess_iff _).mpr hc), if_pos hc]
  · rw [if_neg (fun hb => hc ((shouldProcess_iff _).mp hb)), if_neg hc]

/-- Witness for C1 at a concrete one-row sheet with status `"Pending"`. -/
theorem queue_processes_iff_blank_or_pending_witness :
    0 < ([(⟨"T", "S", "Pending", ""⟩ : SheetRow)] : List SheetRow).length ∧
    (runQueue (fun _ => okOutcome) 0 [⟨"T", "S", "Pending", ""⟩]).getD 0 ⟨"", ""⟩ =
      (if pyStrip (([(⟨"T", "S", "Pending", ""⟩ : SheetRow)].getD 0 ⟨"", "", "", ""⟩)).status = ""
          ∨ pyStrip (([(⟨"T", "S", "Pending", ""⟩ : SheetRow)].getD 0 ⟨"", "", "", ""⟩)).status = "Pending"
       then processRow ((fun _ => okOutcome) 0)
         (initCells ([(⟨"T", "S", "Pending", ""⟩ : SheetRow)].getD 0 ⟨"", "", "", ""⟩))
       else initCells ([(⟨"T", "S", "Pending", ""⟩ : SheetRow)].getD 0 ⟨"", "", "", ""⟩)) :=
  ⟨by decide,
   queue_processes_iff_blank_or_pending (fun _ => okOutcome)
     [⟨"T", "S", "Pending", ""⟩] 0 (by decide)⟩

/-- C2: whatever the outcomes of the phases, a processed row ends in
exactly one of: status `"Completed"` with a non-empty URL cell, status
`"Upload Failed"` with the URL cell untouched, or a status of the form
`"Error: "` followed by a message of at most 50 characters. -/
theorem row_final_status_trichotomy (o : RowOutcome) (c : Cells) :
    ((processRow o c).status = "Completed" ∧ (processRow o c).url ≠ "") ∨
    ((processRow o c).status = "Upload Failed" ∧ (processRow o c).url = c.url) ∨
    (∃ m, (processRow o c).status = "Error: " ++ m ∧ m.length ≤ 50) := by
  rcases processRow_cases o c with ⟨u, hu, h⟩ | h | ⟨e, c0, h⟩
  · left; rw [h]; exact ⟨rfl, hu⟩
  · right; left; rw [h]; exact ⟨rfl, rfl⟩
  · right; right
    exact ⟨pySlice e 50, by rw [h]; rfl, pySlice_length_le e 50⟩

theorem uploadFailedPath_raise (o : RowOutcome) (c : Cells) (e : String)
    (h : firstRaiseFail o = some e) :
    (uploadFailedPath o c).status = "Error: " ++ pySlice e 50 := by
  obtain ⟨mp, au, im, re, up, wc, wu, wf, cl⟩ := o
  cases wf with
  | error e0 =>
      have he : e0 = e := by simpa [firstRaiseFail] using h
      simp [uploadFailedPath, errStatus, he]
  | ok _ =>
    cases cl with
    | error e0 =>
        have he : e0 = e := by simpa [firstRaiseFail] using h
        simp [uploadFailedPath, afterCleanup, errStatus, he]
    | ok _ => simp [firstRaiseFail] at h

theorem row_error_status (o : RowOutcome) (c : Cells) (e : String)
    (h : firstRaise o = some e) :
    (processRow o c).status = "Error: " ++ pySlice e 50 := by
  obtain ⟨mp, au, im, re, up, wc, wu, wf, cl⟩ := o
  cases mp with
  | error e0 =>
      have he : e0 = e := by simpa [firstRaise] using h
      simp [processRow, errStatus, he]
  | ok _ =>
  cases au with
  | error e0 =>
      have he : e0 = e := by simpa [firstRaise] using h
      simp [processRow, errStatus, he]
  | ok _ =>
  cases im with
  | error e0 =>
      have he : e0 = e := by simpa [firstRaise] using h
      simp [processRow, errStatus, he]
  | ok _ =>
  cases re with
  | error e0 =>
      have he : e0 = e := by simpa [firstRaise] using h
      simp [processRow, errStatus, he]
  | ok _ =>
  cases up with
  | error e0 =>
      have he : e0 = e := by simpa [firstRaise] using h
      simp [processRow, errStatus, he]
  | ok v =>
  cases v with
  | none =>
      have hf : firstRaiseFail ⟨Except.ok (), Except.ok (), Except.ok (),
          Except.ok (), Except.ok none, wc, wu, wf, cl⟩ = some e := by
        simpa [firstRaise] using h
      simpa [processRow] using uploadFailedPath_raise _ { c with status := "Processing" } e hf
  | some u =>
    by_cases hu : u = ""
    · have hf : firstRaiseFail ⟨Except.ok (), Except.ok (), Except.ok (),
          Except.ok (), Except.ok (some u), wc, wu, wf, cl⟩ = some e := by
        simpa [firstRaise, hu] using h
      simpa [processRow, hu] using uploadFailedPath_raise _ { c with status := "Processing" } e hf
    · simp only [firstRaise, firstRaiseOk, if_neg hu] at h
      simp only [processRow, if_neg hu]
      cases wc with
      | error e0 =>
          have he : e0 = e := by simpa using h
          simp [errStatus, he]
      | ok _ =>
      cases wu with
      | error e0 =>
          have he : e0 = e := by simpa using h
          simp [errStatus, he]
      | ok _ =>
      cases cl with
      | error e0 =>
          have he : e0 = e := by simpa using h
          simp [afterCleanup, errStatus, he]
      | ok _ => simp at h

/-- C7: whenever the row body raises an exception at any phase, the row
ends with status `"Error: "` followed by the first 50 characters of the
message, and the loop still yields a result for every row of the sheet
(one row's failure never aborts the run). -/
theorem row_failure_isolated (o : RowOutcome) (c : Cells) (e : String)
    (h : firstRaise o = some e) (outcomes : Nat → RowOutcome)
    (rows : List SheetRow) :
    (processRow o c).status = "Error: " ++ pySlice e 50 ∧
    (runQueue outcomes 0 rows).length = rows.length :=
  ⟨row_error_status o c e h, runQueue_length outcomes 0 rows⟩

/-- Row outcome whose audio phase raises, for the C7 witness. -/
def audioFailOutcome : RowOutcome :=
  { okOutcome with audio := Except.error "gTTSError: connection refused" }

/-- Witness for C7: a concrete row whose audio phase raises. -/
theorem row_failure_isolated_witness :
    firstRaise audioFailOutcome = some "gTTSError: connection refused" ∧
    ((processRow audioFailOutcome ⟨"", ""⟩).status =
        "Error: " ++ pySlice "gTTSError: connection refused" 50 ∧
     (runQueue (fun _ => audioFailOutcome) 0 [⟨"T", "S", "", ""⟩]).length =
        [(⟨"T", "S", "", ""⟩ : SheetRow)].length) :=
  ⟨rfl, row_failure_isolated audioFailOutcome ⟨"", ""⟩ _ rfl
    (fun _ => audioFailOutcome) [⟨"T", "S", "", ""⟩]⟩

/-- C10: when the upload returned a usable URL and both success-path
cell writes went through but the cleanup block raises, the status cell
is overwritten with the truncated error while the URL cell keeps the
uploaded link: a row can end with an `"Error:"` status and a non-empty
result-URL cell. -/
theorem late_cleanup_failure_keeps_url (o : RowOutcome) (c : Cells) (u e : String)
    (h1 : o.markProcessing = Except.ok ()) (h2 : o.audio = Except.ok ())
    (h3 : o.images = Except.ok ()) (h4 : o.render = Except.ok ())
    (h5 : o.upload = Except.ok (some u)) (h6 : u ≠ "")
    (h7 : o.writeCompleted = Except.ok ()) (h8 : o.writeUrl = Except.ok ())
    (h9 : o.cleanup = Except.error e) :
    (processRow o c).status = "Error: " ++ pySlice e 50 ∧
    (processRow o c).url = u := by
  simp only [processRow, afterCleanup, h1, h2, h3, h4, h5, h7, h8, h9, if_neg h6]
  simp [errStatus]

/-- Row outcome whose cleanup raises after a successful upload, for the
C10 witness. -/
def cleanupFailOutcome : RowOutcome :=
  { okOutcome with cleanup := Except.error "PermissionError: busy file" }

/-- Witness for C10 at a concrete outcome. -/
theorem late_cleanup_failure_keeps_url_witness :
    (cleanupFailOutcome.markProcessing = Except.ok () ∧
     cleanupFailOutcome.audio = Except.ok () ∧
     cleanupFailOutcome.images = Except.ok () ∧
     cleanupFailOutcome.render = Except.ok () ∧
     cleanupFailOutcome.upload = Except.ok (some "https://gofile.io/d/demo") ∧
     ("https://gofile.io/d/demo" : String) ≠ "" ∧
     cleanupFailOutcome.writeCompleted = Except.ok () ∧
     cleanupFailOutcome.writeUrl = Except.ok () ∧
     cleanupFailOutcome.cleanup = Except.error "PermissionError: busy file") ∧
    ((processRow cleanupFailOutcome ⟨"Pending", ""⟩).status =
        "Error: " ++ pySlice "PermissionError: busy file" 50 ∧
     (processRow cleanupFailOutcome ⟨"Pending", ""⟩).url = "https://gofile.io/d/demo") :=
  ⟨⟨rfl, rfl, rfl, rfl, rfl, by decide, rfl, rfl, rfl⟩,
   late_cleanup_failure_keeps_url cleanupFailOutcome ⟨"Pending", ""⟩
     "https://gofile.io/d/demo" "PermissionError: busy file"
     rfl rfl rfl rfl rfl (by decide) rfl rfl rfl⟩

theorem catboxTried_iff_no_url (env : UploadEnv) :
    (upload_to_gofile env).catboxTried = true ↔
      ∀ url : String, (primaryBody env).1 ≠ Except.ok (some url) := by
  unfold upload_to_gofile
  rcases hp : primaryBody env with ⟨p, srv⟩
  cases p with
  | error e => cases hc : catboxBody env <;> simp [hc]
  | ok v =>
    cases v with
    | none => cases hc : catboxBody env <;> simp [hc]
    | some u =>
      simp only [Bool.false_eq_true, false_iff, not_forall, not_not]
      exact ⟨u, rfl⟩

theorem primary_no_url_iff (env : UploadEnv) :
    (∀ url : String, (primaryBody env).1 ≠ Except.ok (some url)) ↔
      ((∃ e, env.getServer = Except.error e) ∨
       (∃ r, env.getServer = Except.ok r ∧ ∃ e, pickServer r = Except.error e) ∨
       (∃ r s, env.getServer = Except.ok r ∧ pickServer r = Except.ok s ∧
         ((∃ e, env.uploadResp s = Except.error e) ∨
          (∃ resp, env.uploadResp s = Except.ok resp ∧
            (resp.status ≠ "ok" ∨ resp.downloadPage = none))))) := by
  cases hg : env.getServer with
  | error e => simp [primaryBody, hg]
  | ok r =>
    cases hps : pickServer r with
    | error e => simp [primaryBody, hg, hps]
    | ok s =>
      cases hu : env.uploadResp s with
      | error e => simp [primaryBody, hg, hps, hu]
      | ok resp =>
        by_cases hs : resp.status = "ok"
        · cases hd : resp.downloadPage with
          | none => simp [primaryBody, hg, hps, hu, hs, hd]
          | some url => simp [primaryBody, hg, hps, hu, hs, hd]
        · simp [primaryBody, hg, hps, hu, hs]

/-- C3 (amended): the Publisher attempts the secondary host if and only
if the primary path fails to return a download-page URL: the
server-assignment call raises, or the server selection raises (which,
for a non-ok assignment status, happens only when the alternate-zone
list is missing or empty), or the upload POST to the chosen server
raises, returns a non-ok status, or returns an envelope without a
download page. A non-ok assignment status alone does not send the
Publisher to the secondary host: it retargets the primary upload at the
first alternate-zone server. -/
theorem secondary_iff_primary_path_fails (env : UploadEnv) :
    (upload_to_gofile env).catboxTried = true ↔
      ((∃ e, env.getServer = Except.error e) ∨
       (∃ r, env.getServer = Except.ok r ∧ ∃ e, pickServer r = Except.error e) ∨
       (∃ r s, env.getServer = Except.ok r ∧ pickServer r = Except.ok s ∧
         ((∃ e, env.uploadResp s = Except.error e) ∨
          (∃ resp, env.uploadResp s = Except.ok resp ∧
            (resp.status ≠ "ok" ∨ resp.downloadPage = none))))) :=
  (catboxTried_iff_no_url env).trans (primary_no_url_iff env)

/-- Server-assignment envelope for the C3 counterexample: non-ok status
with a populated alternate-zone list. -/
def busyServerResp : ServerResp :=
  ⟨"overloaded", none, some ["storeA", "storeB"]⟩

/-- Environment for the C3 counterexample: the assignment call returns
non-ok, yet the upload to the first alternate-zone server succeeds. -/
def busyZoneEnv : UploadEnv :=
  ⟨Except.ok busyServerResp,
   fun _ => Except.ok ⟨"ok", some "https://gofile.io/d/abc"⟩,
   Except.ok (200, "https://files.catbox.moe/demo.mp4")⟩

/-- Counterexample to C3 as stated: the server-assignment call returns a
non-ok status, yet the secondary host is never contacted — the primary
path succeeds through the first alternate-zone server. -/
theorem secondary_attempt_cex :
    busyZoneEnv.getServer = Except.ok busyServerResp ∧
    busyServerResp.status ≠ "ok" ∧
    (upload_to_gofile busyZoneEnv).catboxTried = false ∧
    (upload_to_gofile busyZoneEnv).result = some "https://gofile.io/d/abc" :=
  ⟨rfl, by decide, by decide, by decide⟩

/-- C8: `upload_to_gofile` never lets an exception escape to its caller:
with exception propagation made explicit, the call always returns
normally, with either a URL string or Python `None`. -/
theorem publisher_never_raises (env : UploadEnv) :
    uploadRun env = Except.ok (upload_to_gofile env).result := by
  unfold uploadRun upload_to_gofile
  rcases hp : primaryBody env with ⟨p, srv⟩
  cases p with
  | error e => cases hc : catboxBody env <;> simp [hc]
  | ok v =>
    cases v with
    | none => cases hc : catboxBody env <;> simp [hc]
    | some u => simp

theorem upload_gofileServer_eq (env : UploadEnv) :
    (upload_to_gofile env).gofileServer = (primaryBody env).2 := by
  unfold upload_to_gofile
  rcases hp : primaryBody env with ⟨p, srv⟩
  cases p with
  | error e => cases hc : catboxBody env <;> simp [hc]
  | ok v =>
    cases v with
    | none => cases hc : catboxBody env <;> simp [hc]
    | some u => simp

theorem primaryBody_snd_of_zone (env : UploadEnv) (r : ServerResp) (s : String)
    (rest : List String) (h1 : env.getServer = Except.ok r)
    (h2 : r.status ≠ "ok") (h3 : r.serversAllZone = some (s :: rest)) :
    (primaryBody env).2 = some s := by
  have hp : pickServer r = Except.ok s := by
    simp [pickServer, if_neg h2, h3]
  simp only [primaryBody, h1, hp]
  cases hu : env.uploadResp s with
  | error e => simp
  | ok resp =>
    by_cases hs : resp.status = "ok"
    · cases hd : resp.downloadPage <;> simp [hs, hd]
    · simp [hs]

/-- C9: when the server-assignment call returns a non-ok status together
with an alternate-zone server list, the one upload POST the Publisher
makes targets the first entry of that list — never any later entry. -/
theorem backup_first_server (env : UploadEnv) (r : ServerResp) (s : String)
    (rest : List String) (h1 : env.getServer = Except.ok r)
    (h2 : r.status ≠ "ok") (h3 : r.serversAllZone = some (s :: rest)) :
    (upload_to_gofile env).gofileServer = some s := by
  rw [upload_gofileServer_eq, primaryBody_snd_of_zone env r s rest h1 h2 h3]

/-- Environment for the C9 witness: non-ok assignment with backup zones
`storeA`, `storeB`. -/
def zoneEnv : UploadEnv :=
  ⟨Except.ok ⟨"error", none, some ["storeA", "storeB"]⟩,
   fun s => Except.ok ⟨"ok", some ("https://" ++ s ++ ".gofile.io/d/x")⟩,
   Except.ok (200, "https://files.catbox.moe/x.mp4")⟩

/-- Witness for C9: with backup zones `[storeA, storeB]` the POST
targets `storeA`. -/
theorem backup_first_server_witness :
    (zoneEnv.getServer = Except.ok ⟨"error", none, some ["storeA", "storeB"]⟩ ∧
     (⟨"error", none, some ["storeA", "storeB"]⟩ : ServerResp).status ≠ "ok" ∧
     (⟨"error", none, some ["storeA", "storeB"]⟩ : ServerResp).serversAllZone =
       some ("storeA" :: ["storeB"])) ∧
    (upload_to_gofile zoneEnv).gofileServer = some "storeA" :=
  ⟨⟨rfl, by decide, rfl⟩,
   backup_first_server zoneEnv ⟨"error", none, some ["storeA", "storeB"]⟩
     "storeA" ["storeB"] rfl (by decide) rfl⟩

theorem downloadLoop_le : ∀ (l : List Bool) (c : Nat),
    downloadLoop l c ≤ max c IMAGE_COUNT
  | [], c => le_max_left c IMAGE_COUNT
  | r :: t, c => by
      unfold downloadLoop
      by_cases hc : IMAGE_COUNT ≤ c
      · rw [if_pos hc]; exact le_max_left _ _
      · rw [if_neg hc]
        have hnext : (if r then c + 1 else c) ≤ IMAGE_COUNT := by
          simp only [IMAGE_COUNT] at hc ⊢
          split <;> omega
        refine le_trans (downloadLoop_le t _) ?_
        rw [Nat.max_eq_right hnext]
        exact le_max_right _ _

/-- C4 (amended): the Image Collector never saves more than
`IMAGE_COUNT` (20) images; the filenames are sequential `img_<i>.jpg` —
not zero-padded — so the lexicographic sort used downstream reproduces
the save order (the intended slideshow order) whenever at most 10
images were saved. -/
theorem image_count_bound_and_short_order (results : List Bool) (n : Nat)
    (h : n ≤ 10) :
    download_images results ≤ IMAGE_COUNT ∧
    sortImages (savedImageNames n) = savedImageNames n := by
  constructor
  · simpa [download_images] using downloadLoop_le results 0
  · have hall : ∀ m : Nat, m ≤ 10 →
        sortImages (savedImageNames m) = savedImageNames m := by decide
    exact hall n h

/-- Counterexample to C4 as stated: with 11 saved images — within the
target of 20 — the lexicographic sort of the filenames differs from the
save order (`img_10.jpg` sorts before `img_2.jpg`): the filenames are
not zero-padded. -/
theorem image_sort_order_cex :
    11 ≤ IMAGE_COUNT ∧
    sortImages (savedImageNames 11) ≠ savedImageNames 11 := by decide

/-- Witness for C4 at 25 all-successful candidates and 10 saved images. -/
theorem image_count_bound_and_short_order_witness :
    10 ≤ 10 ∧
    (download_images (List.replicate 25 true) ≤ IMAGE_COUNT ∧
     sortImages (savedImageNames 10) = savedImageNames 10) :=
  ⟨by decide,
   image_count_bound_and_short_order (List.replicate 25 true) 10 (by decide)⟩

theorem sum_map_const {α : Type} (l : List α) (q : ℚ) :
    (l.map (fun _ => q)).sum = l.length * q := by
  induction l with
  | nil => simp
  | cons a t ih =>
      simp only [List.map_cons, List.sum_cons, List.length_cons, ih]
      push_cast
      ring

theorem filterMap_dur_map (S : List String) (d : ℚ) :
    (S.map (fun p => (⟨p, some d⟩ : ManifestEntry))).filterMap ManifestEntry.dur =
      S.map (fun _ => d) := by
  induction S with
  | nil => rfl
  | cons a t ih => simp [List.filterMap_cons, ih]

/-- C5: for every directory listing whose sorted `.jpg` entries are
non-empty and every positive audio duration, the manifest emitted by
`render_video` holds exactly one duration-bearing entry per image plus
one final duration-less line repeating the last image path, and the
durations written sum exactly to the audio duration (exactly in ℚ; the
Python source computes the same quantities in floating point). -/
theorem manifest_shape (files : List String) (duration : ℚ)
    (hne : sortImages files ≠ []) (_hpos : 0 < duration) :
    ∃ m, render_video files duration = Except.ok m ∧
      m = (sortImages files).map
            (fun p => ⟨p, some (duration / (sortImages files).length)⟩) ++
          [⟨(sortImages files).getLastD "", none⟩] ∧
      m.length = (sortImages files).length + 1 ∧
      (m.filterMap ManifestEntry.dur).sum = duration := by
  have hlen : (sortImages files).length ≠ 0 := by
    simpa [List.length_eq_zero] using hne
  have hq : ((sortImages files).length : ℚ) ≠ 0 := Nat.cast_ne_zero.mpr hlen
  refine ⟨manifest (sortImages files) (duration / (sortImages files).length),
    by simp [render_video, hlen], rfl, by simp [manifest], ?_⟩
  have h1 : (manifest (sortImages files)
        (duration / (sortImages files).length)).filterMap ManifestEntry.dur =
      (sortImages files).map (fun _ => duration / (sortImages files).length) := by
    rw [manifest, List.filterMap_append, filterMap_dur_map]
    simp
  rw [h1, sum_map_const]
  field_simp

/-- Witness for C5 at one image file and duration 3. -/
theorem manifest_shape_witness :
    (sortImages ["a.jpg"] ≠ [] ∧ (0 : ℚ) < 3) ∧
    (∃ m, render_video ["a.jpg"] 3 = Except.ok m ∧
      m = (sortImages ["a.jpg"]).map
            (fun p => ⟨p, some (3 / (sortImages ["a.jpg"]).length)⟩) ++
          [⟨(sortImages ["a.jpg"]).getLastD "", none⟩] ∧
      m.length = (sortImages ["a.jpg"]).length + 1 ∧
      (m.filterMap ManifestEntry.dur).sum = 3) :=
  ⟨⟨by decide, by decide⟩, manifest_shape ["a.jpg"] 3 (by decide) (by decide)⟩

/-- C6: when no `.jpg` file exists in the working directory,
`render_video` fails with a division error computing the per-image
duration — `duration / len(img_files)` with an empty list — instead of
producing a manifest. -/
theorem zero_images_division_error (files : List String) (duration : ℚ)
    (h : files.filter (fun f => pyEndsWith f ".jpg") = []) :
    render_video files duration =
      Except.error "ZeroDivisionError: division by zero" := by
  have hs : sortImages files = [] := by simp [sortImages, h, List.insertionSort]
  simp [render_video, hs]

/-- Witness for C6: a directory holding only a `.png` file. -/
theorem zero_images_division_error_witness :
    ["cover.png"].filter (fun f => pyEndsWith f ".jpg") = [] ∧
    render_video ["cover.png"] 5 =
      Except.error "ZeroDivisionError: division by zero" :=
  ⟨by decide, zero_images_division_error ["cover.png"] 5 (by decide)⟩

end InDra
